import Mathlib

/-!
# Verification of the AdvDec pipeline (`src/advdec.py`)

A shallow embedding of the market-data pipeline in `advdec.py`: the program
fetches two datasets (most-active securities, index advances/declines) from a
provider, normalizes them to tabular form with pandas, and writes each to a
Google-Sheets tab and a CSV file.

Modelling conventions:
* Python runtime values that can appear in a provider payload or a DataFrame
  cell are `Val` (string, integer, None/NaN, dict, list).
* A pandas `DataFrame` is a header (column labels) plus a list of rows.
* Exceptions are `Except String α`; the error string is the Python message.
* The external collaborators (nsepython provider, gspread client, filesystem)
  are oracles supplied through an `Env`; their documented behaviour (spec §6)
  is the only thing modelled about them.  Everything else is translated
  line-by-line from `advdec.py`.
-/

/-- A Python runtime value as it appears in payloads and DataFrame cells.
`null` models both Python `None` and the pandas missing marker `NaN`
(both satisfy `pd.isnull`). -/
inductive Val where
  | str (s : String)
  | num (n : Int)
  | null
  | dict (fields : List (String × Val))
  | list (elems : List Val)

/-- `True` exactly for values on which Python `isinstance(x, (dict, list))`
holds: the nested structures. -/
def Val.isNested : Val → Bool
  | .dict _ => true
  | .list _ => true
  | _ => false

/-- Python `isinstance(x, dict)`. -/
def Val.isDict : Val → Bool
  | .dict _ => true
  | _ => false

/-- Python `pd.isnull(x)` on our value universe: true exactly on the
None/NaN marker. -/
def Val.isNull : Val → Bool
  | .null => true
  | _ => false

/-- Python truthiness (`if data:`): empty collections, empty strings, zero and
`None` are falsy. -/
def Val.truthy : Val → Bool
  | .null => false
  | .str s => !s.isEmpty
  | .num n => n != 0
  | .dict fs => !fs.isEmpty
  | .list xs => !xs.isEmpty

mutual

/-- Python `str(x)` (equivalently `repr` for containers): dicts render as
`{'k': v, ...}`, lists as `[v, ...]`, strings inside containers are quoted.
`null` renders as `None`. -/
def pyStr : Val → String
  | .str s => "\x27" ++ s ++ "\x27"
  | .num n => toString n
  | .null => "None"
  | .dict fs => "\x7b" ++ pyStrFields fs ++ "\x7d"
  | .list xs => "[" ++ pyStrElems xs ++ "]"

/-- Renders the `'key': value` items of a dict, comma-separated. -/
def pyStrFields : List (String × Val) → String
  | [] => ""
  | [(k, v)] => "\x27" ++ k ++ "\x27: " ++ pyStr v
  | (k, v) :: rest => "\x27" ++ k ++ "\x27: " ++ pyStr v ++ ", " ++ pyStrFields rest

/-- Renders the elements of a list, comma-separated. -/
def pyStrElems : List Val → String
  | [] => ""
  | [v] => pyStr v
  | v :: rest => pyStr v ++ ", " ++ pyStrElems rest

end

/-- Python string slice `s[:n]` (used as `x[:50000]` in `flatten_dataframe`). -/
def pyTake (s : String) (n : Nat) : String :=
  String.mk (s.data.take n)

/-- One cell of `flatten_dataframe` (advdec.py:62-68): the first `apply`
replaces a dict/list with `str(x)`, the second truncates any string longer
than 50000 characters to its first 50000.  The source applies the two lambdas
only to columns of dtype `object`, but on a non-object (purely numeric)
column every cell is a number or NaN, on which both lambdas are the
identity, so the per-cell composition below is extensionally the same. -/
def flattenCell (v : Val) : Val :=
  let v1 : Val :=
    match v with
    | .dict _ => .str (pyStr v)
    | .list _ => .str (pyStr v)
    | w => w
  match v1 with
  | .str s => if s.length > 50000 then .str (pyTake s 50000) else .str s
  | w => w

/-- One cell of the advances/declines cleaning step (advdec.py:137):
`lambda x: "" if isinstance(x, (dict, list)) or pd.isnull(x) else x`. -/
def cleanCell (v : Val) : Val :=
  if v.isNested || v.isNull then .str "" else v

/-- A pandas DataFrame: ordered column labels and rows of cells.  Every row
produced by the constructors below has one cell per header column. -/
structure DataFrame where
  header : List String
  rows : List (List Val)

/-- pandas `df.empty`: true when either axis has length zero. -/
def DataFrame.isEmptyDf (df : DataFrame) : Bool :=
  df.rows.isEmpty || df.header.isEmpty

/-- `flatten_dataframe` (advdec.py:62-68) applied to every cell. -/
def flatten_dataframe (df : DataFrame) : DataFrame :=
  { header := df.header, rows := df.rows.map (fun r => r.map flattenCell) }

/-- `df.applymap(lambda x: "" if isinstance(x,(dict,list)) or pd.isnull(x) else x)`
(advdec.py:137). -/
def cleanDataFrame (df : DataFrame) : DataFrame :=
  { header := df.header, rows := df.rows.map (fun r => r.map cleanCell) }

/-- Adds a key at the end unless already present (key-union accumulator). -/
def insertKey (acc : List String) (k : String) : List String :=
  if k ∈ acc then acc else acc ++ [k]

/-- Folds one record's keys into the accumulated column list. -/
def addKeys (acc : List String) (rec : List (String × Val)) : List String :=
  rec.foldl (fun a kv => insertKey a kv.1) acc

/-- The column index pandas builds for `pd.DataFrame(list_of_dicts)`: the
union of the records' keys in first-seen order. -/
def unionKeys (recs : List (List (String × Val))) : List String :=
  recs.foldl addKeys []

/-- First value stored under key `k` in a record (Python dicts have unique
keys, so first-match lookup is exact). -/
def recGet (rec : List (String × Val)) (k : String) : Option Val :=
  match rec with
  | [] => none
  | (k', v) :: rest => if k' = k then some v else recGet rest k

/-- `pd.DataFrame(list_of_dicts)`: header is the first-seen union of keys;
each record becomes a row with `NaN` (`Val.null`) in the columns the record
lacks. -/
def dfOfRecords (recs : List (List (String × Val))) : DataFrame :=
  { header := unionKeys recs
    rows := recs.map (fun rec => (unionKeys recs).map (fun k => (recGet rec k).getD Val.null)) }

/-- The field list of a dict value (meaningful under an `isDict` guard). -/
def Val.fields : Val → List (String × Val)
  | .dict fs => fs
  | _ => []

/-- Python `isinstance(x, list)` on our value universe (pandas'
`is_list_like` dispatch, which treats strings as scalars). -/
def Val.isList : Val → Bool
  | .list _ => true
  | _ => false

/-- The element list of a list value (meaningful under an `isList` guard). -/
def Val.elems : Val → List Val
  | .list xs => xs
  | _ => []

/-- The longest row length among the sequence elements of `xs`; pandas pads
shorter rows with `NaN` to this width on its nested (tabulating) path. -/
def maxRowLen (xs : List Val) : Nat :=
  (xs.map (fun v => v.elems.length)).foldl max 0

/-- `pd.DataFrame(xs)` on a Python list `xs`:
* an empty list gives an empty frame;
* a list of dicts gives the record frame (`dfOfRecords`);
* mixing dicts with non-dicts raises pandas' "Mixing dicts with non-Series
  may lead to ambiguous ordering." `ValueError`;
* otherwise pandas dispatches on the first element.  A sequence there
  selects the nested (tabulating) path: the sequences become the rows,
  right-padded with `NaN` to the longest one, under the integer column
  labels `0..k-1`, and an element without a length raises `TypeError`
  (string elements on this path, which pandas would spread character-wise,
  are modelled by the same error branch: no code path nor claim reaches
  them).  A scalar first element makes the whole list a single object
  column labelled `0`, later sequence elements staying opaque cells. -/
def pdDataFrameOfList (xs : List Val) : Except String DataFrame :=
  if xs.isEmpty then .ok { header := [], rows := [] }
  else if xs.all Val.isDict then .ok (dfOfRecords (xs.map Val.fields))
  else if xs.any Val.isDict then
    .error "Mixing dicts with non-Series may lead to ambiguous ordering."
  else
    match xs with
    | [] => .ok { header := [], rows := [] }
    | x :: _ =>
      if x.isList then
        if xs.all Val.isList then
          .ok { header := (List.range (maxRowLen xs)).map (fun i => toString i),
                rows := xs.map (fun v =>
                  v.elems ++ List.replicate (maxRowLen xs - v.elems.length) Val.null) }
        else .error "TypeError: object has no len()"
      else .ok { header := ["0"], rows := xs.map (fun v => [v]) }

/-- The Python runtime type of the data handed to
`validate_and_convert_to_dataframe` / the most-active fetch, tagged for the
`isinstance` dispatch the source performs (spec §9 asks for exactly this
tagged variant). -/
inductive RawData where
  | frame (df : DataFrame)
  | list (xs : List Val)
  | dict (fields : List (String × Val))
  | scalar (v : Val)

/-- `validate_and_convert_to_dataframe` (advdec.py:48-60): a DataFrame passes
through; a list goes through `pd.DataFrame` (whose `ValueError` on mixed
lists would propagate — there is no `try` here); a dict becomes a single-row
frame; anything else logs a warning and returns `None`. -/
def validate_and_convert_to_dataframe (data : RawData) : Except String (Option DataFrame) :=
  match data with
  | .frame df => .ok (some df)
  | .list xs => (pdDataFrameOfList xs).map some
  | .dict fs => .ok (some (dfOfRecords [fs]))
  | .scalar _ => .ok none

/-- The advances/declines conversion (advdec.py:124-134) applied to the raw
`nse_get_advances_declines("index")` response:
* if the response is a dict, `del data["meta"]` removes the `meta` entry and
  `data.get("data", [])` extracts the row collection (defaulting to `[]`);
* `if data and isinstance(data[0], dict): df = pd.DataFrame(data)`,
  otherwise `raise ValueError("Data is not in a suitable format for
  DataFrame conversion")`.  A falsy collection (absent or empty) therefore
  raises; a truthy non-indexable value raises the `data[0]` exception
  instead (a string's first character is a `str`, so a nonempty string also
  reaches the `ValueError`). -/
def advDecConvert (resp : Val) : Except String DataFrame :=
  let d1 : Val :=
    match resp with
    | .dict fs => .dict (fs.filter (fun kv => kv.1 ≠ "meta"))
    | v => v
  let d2 : Val :=
    match d1 with
    | .dict fs => (recGet fs "data").getD (Val.list [])
    | v => v
  if d2.truthy then
    match d2 with
    | .list (Val.dict f :: rest) => pdDataFrameOfList (Val.dict f :: rest)
    | .list (_ :: _) => .error "Data is not in a suitable format for DataFrame conversion"
    | .list [] => .error "Data is not in a suitable format for DataFrame conversion"
    | .str _ => .error "Data is not in a suitable format for DataFrame conversion"
    | .dict _ => .error "KeyError: 0"
    | _ => .error "TypeError: object is not subscriptable"
  else .error "Data is not in a suitable format for DataFrame conversion"

/-!
## Fetching

`fetch_nse_data` makes a single provider call (`nse_most_active`);
`fetch_nse_data_with_retries` wraps an underlying fetcher in the bounded
retry loop of advdec.py:70-83.  The provider and the random number generator
are external, so they enter as oracles: `f i` is the outcome of the `i`-th
underlying call, `rand i` the `i`-th `random.uniform(delay, delay * 2)` draw.
-/

/-- `fetch_nse_data` (advdec.py:86-94): one call to `nse_most_active` inside
`try/except Exception`; a provider exception is logged and `None` is
returned, so the function never raises — which is why its result type here
is already exception-free. -/
def fetch_nse_data (providerResp : Except String RawData) : Option RawData :=
  match providerResp with
  | .ok v => some v
  | .error _ => none

/-- The body of the `for attempt in range(retries)` loop of
`fetch_nse_data_with_retries` (advdec.py:70-83), entered at loop index
`attempt`.  On success the payload is returned; on an exception the loop
sleeps for `rand attempt` seconds (`random.uniform(delay, delay * 2)`) and
retries unless this was the last attempt, in which case it returns `None`.
Result: (returned value, number of calls made, sleep durations in order). -/
def retryFrom (f : Nat → Except String Val) (rand : Nat → ℚ) (retries attempt : Nat) :
    Option Val × Nat × List ℚ :=
  if attempt < retries then
    match f attempt with
    | .ok v => (some v, attempt + 1, [])
    | .error _ =>
      if attempt < retries - 1 then
        let rest := retryFrom f rand retries (attempt + 1)
        (rest.1, rest.2.1, rand attempt :: rest.2.2)
      else (none, attempt + 1, [])
  else (none, attempt, [])
termination_by retries - attempt
decreasing_by omega

/-- `fetch_nse_data_with_retries(retries, delay)` (advdec.py:70-83), the
default being `retries = 3`: runs the loop from attempt 0. -/
def fetch_nse_data_with_retries (f : Nat → Except String Val) (rand : Nat → ℚ)
    (retries : Nat) : Option Val × Nat × List ℚ :=
  retryFrom f rand retries 0

/-!
## Spreadsheet sink and pipeline driver

The gspread collaborator (spec §6) is a store of named worksheets; a
worksheet carries its grid dimensions and its written cell contents.
`worksheet.clear()` empties all cell contents and `worksheet.update(vals)`
writes `vals`, so clear-then-update leaves exactly `vals` as the contents.
`UploadError` (auth invalid / service unreachable, spec §7) is modelled by
the `uploadOk` flag checked when the client first touches the service.
-/

/-- A worksheet: grid dimensions plus the block of cell contents last
written. -/
structure Worksheet where
  nrows : Nat
  ncols : Nat
  cells : List (List Val)

/-- Looks up the worksheet named `n` (first match), `none` when
`gspread.exceptions.WorksheetNotFound` would be raised. -/
def findTab : List (String × Worksheet) → String → Option Worksheet
  | [], _ => none
  | p :: ps, n => if p.1 = n then some p.2 else findTab ps n

/-- Replaces the contents of every entry named `n` by `ws`. -/
def setTab (tabs : List (String × Worksheet)) (n : String) (ws : Worksheet) :
    List (String × Worksheet) :=
  tabs.map (fun p => if p.1 = n then (n, ws) else p)

/-- `upload_to_google_sheets` (advdec.py:31-46): with the service reachable,
a found worksheet is cleared and rewritten in place (dimensions kept); a
missing worksheet is created with `rows = len(dataframe) + 1`,
`cols = len(dataframe.columns)` and then written.  Either way the written
block is `[header] + data rows`.  With the service unreachable or the
credentials invalid the first remote call raises, and nothing in the
function catches it. -/
def upload_to_google_sheets (uploadOk : Bool) (tabs : List (String × Worksheet))
    (tab_name : String) (df : DataFrame) : Except String (List (String × Worksheet)) :=
  if uploadOk then
    match findTab tabs tab_name with
    | some ws =>
      .ok (setTab tabs tab_name
        { nrows := ws.nrows, ncols := ws.ncols, cells := df.header.map Val.str :: df.rows })
    | none =>
      .ok (tabs ++ [(tab_name,
        { nrows := df.rows.length + 1, ncols := df.header.length,
          cells := df.header.map Val.str :: df.rows })])
  else .error "UploadError"

/-- `save_data_to_csv` (advdec.py:96-103): the write sits inside
`try/except`, so a failing write is logged and swallowed; a successful one
adds `file_name.csv` with the frame's contents.  `csvOk` says which file
writes succeed. -/
def save_data_to_csv (csvOk : String → Bool) (files : List (String × DataFrame))
    (file_name : String) (df : DataFrame) : List (String × DataFrame) :=
  if csvOk file_name then files ++ [(file_name, df)] else files

/-- The external world supplied to one run: the two provider responses, the
spreadsheet service's availability, and which CSV writes succeed. -/
structure Env where
  mostActiveResp : Except String RawData
  advDecResp : Except String Val
  uploadOk : Bool
  csvOk : String → Bool

/-- The observable effects of one run: the worksheet store, the CSV files
written, and how many `nse_most_active` provider calls were made. -/
structure World where
  tabs : List (String × Worksheet)
  csvFiles : List (String × DataFrame)
  mostActiveCalls : Nat

/-- The advances/declines half of the driver (advdec.py:121-145).  None of
it is wrapped in `try`: a provider exception, the `ValueError` from the
conversion, a `to_csv` failure (advdec.py:141 writes directly, unlike
`save_data_to_csv`), and an upload failure all propagate as the run's
uncaught exception (second component `some e`).  The CSV is written before
the upload is attempted. -/
def advDecStage (env : Env) (w : World) : World × Option String :=
  match env.advDecResp with
  | .error e => (w, some e)
  | .ok data =>
    match advDecConvert data with
    | .error e => (w, some e)
    | .ok df0 =>
      let df := cleanDataFrame df0
      if env.csvOk "advances_declines" then
        let w1 : World := { w with csvFiles := w.csvFiles ++ [("advances_declines", df)] }
        match upload_to_google_sheets env.uploadOk w1.tabs "Adv_Dec" df with
        | .error e => (w1, some e)
        | .ok tabs2 => ({ w1 with tabs := tabs2 }, none)
      else (w, some "FileError")

/-- `save_data_to_google_sheets_and_csv` (advdec.py:105-145), the pipeline
driver, run against an empty worksheet store.  Returns the final world and
`some e` when an uncaught exception `e` terminates the run.  The most-active
branch: a dict payload is wrapped into a single-row frame; `None` or an
empty frame skips the block; a list or scalar payload crashes at
`most_active_data.empty` with `AttributeError`; otherwise the frame is
validated, flattened, uploaded (uncaught on failure) and saved to CSV
(caught on failure).  `mostActiveCalls` counts the `nse_most_active` calls
made inside `fetch_nse_data`, which runs exactly once before anything
else. -/
def save_data_to_google_sheets_and_csv (env : Env) : World × Option String :=
  let w0 : World := { tabs := [], csvFiles := [], mostActiveCalls := 1 }
  let most_active_data : Option RawData := fetch_nse_data env.mostActiveResp
  let most_active_data : Option RawData :=
    match most_active_data with
    | some (.dict fs) => some (.frame (dfOfRecords [fs]))
    | d => d
  match most_active_data with
  | none => advDecStage env w0
  | some (.frame df) =>
    if df.isEmptyDf then advDecStage env w0
    else
      match validate_and_convert_to_dataframe (.frame df) with
      | .error e => (w0, some e)
      | .ok none => (w0, some "AttributeError: NoneType object has no attribute columns")
      | .ok (some vdf) =>
        let fdf := flatten_dataframe vdf
        match upload_to_google_sheets env.uploadOk w0.tabs "Most Active" fdf with
        | .error e => (w0, some e)
        | .ok tabs1 =>
          let files1 := save_data_to_csv env.csvOk w0.csvFiles "Most_Active" fdf
          advDecStage env { tabs := tabs1, csvFiles := files1, mostActiveCalls := 1 }
  | some _ => (w0, some "AttributeError: object has no attribute empty")

/-!
## Supporting lemmas
-/

/-- Membership after inserting one key: the old keys plus the new one. -/
theorem mem_insertKey {acc : List String} {k x : String} :
    x ∈ insertKey acc k ↔ x ∈ acc ∨ x = k := by
  unfold insertKey
  split
  · constructor
    · exact Or.inl
    · rintro (hx | rfl)
      · exact hx
      · assumption
  · simp

/-- Inserting a key preserves freedom from duplicates. -/
theorem nodup_insertKey {acc : List String} {k : String} (h : acc.Nodup) :
    (insertKey acc k).Nodup := by
  unfold insertKey
  split
  · exact h
  · simp [List.nodup_append, h, *]

/-- Membership after folding a whole record's keys in. -/
theorem mem_addKeys {rec : List (String × Val)} :
    ∀ {acc : List String} {x : String},
      x ∈ addKeys acc rec ↔ x ∈ acc ∨ ∃ kv ∈ rec, kv.1 = x := by
  induction rec with
  | nil => intro acc x; simp [addKeys]
  | cons kv rest ih =>
    intro acc x
    have hstep : addKeys acc (kv :: rest) = addKeys (insertKey acc kv.1) rest := rfl
    rw [hstep, ih, mem_insertKey]
    constructor
    · rintro ((hx | rfl) | ⟨p, hp, rfl⟩)
      · exact Or.inl hx
      · exact Or.inr ⟨kv, List.mem_cons_self _ _, rfl⟩
      · exact Or.inr ⟨p, List.mem_cons_of_mem _ hp, rfl⟩
    · rintro (hx | ⟨p, hp, rfl⟩)
      · exact Or.inl (Or.inl hx)
      · rcases List.mem_cons.mp hp with rfl | hp'
        · exact Or.inl (Or.inr rfl)
        · exact Or.inr ⟨p, hp', rfl⟩

/-- Folding a record's keys in preserves freedom from duplicates. -/
theorem nodup_addKeys {rec : List (String × Val)} :
    ∀ {acc : List String}, acc.Nodup → (addKeys acc rec).Nodup := by
  induction rec with
  | nil => intro acc h; exact h
  | cons kv rest ih =>
    intro acc h
    exact ih (nodup_insertKey h)

/-- Membership in the accumulated key union of a record list. -/
theorem mem_foldl_addKeys {recs : List (List (String × Val))} :
    ∀ {acc : List String} {x : String},
      x ∈ recs.foldl addKeys acc ↔ x ∈ acc ∨ ∃ rec ∈ recs, ∃ kv ∈ rec, kv.1 = x := by
  induction recs with
  | nil => intro acc x; simp
  | cons rec rest ih =>
    intro acc x
    rw [List.foldl_cons, ih, mem_addKeys]
    constructor
    · rintro ((hx | ⟨kv, hkv, rfl⟩) | ⟨r, hr, hkv⟩)
      · exact Or.inl hx
      · exact Or.inr ⟨rec, List.mem_cons_self _ _, kv, hkv, rfl⟩
      · exact Or.inr ⟨r, List.mem_cons_of_mem _ hr, hkv⟩
    · rintro (hx | ⟨r, hr, hkv⟩)
      · exact Or.inl (Or.inl hx)
      · rcases List.mem_cons.mp hr with rfl | hr'
        · exact Or.inl (Or.inr hkv)
        · exact Or.inr ⟨r, hr', hkv⟩

/-- The accumulated key union of a record list has no duplicates. -/
theorem nodup_foldl_addKeys {recs : List (List (String × Val))} :
    ∀ {acc : List String}, acc.Nodup → (recs.foldl addKeys acc).Nodup := by
  induction recs with
  | nil => intro acc h; exact h
  | cons rec rest ih => intro acc h; exact ih (nodup_addKeys h)

/-- A key is a column of the record frame iff some record carries it. -/
theorem mem_unionKeys {recs : List (List (String × Val))} {x : String} :
    x ∈ unionKeys recs ↔ ∃ rec ∈ recs, ∃ kv ∈ rec, kv.1 = x := by
  rw [unionKeys, mem_foldl_addKeys]
  simp

/-- The columns of the record frame carry no duplicates. -/
theorem nodup_unionKeys {recs : List (List (String × Val))} :
    (unionKeys recs).Nodup :=
  nodup_foldl_addKeys List.nodup_nil

/-- Unfolding the retry loop at a failing, non-final attempt. -/
theorem retryFrom_step_fail {f : Nat → Except String Val} {rand : Nat → ℚ}
    {retries attempt : Nat} {e : String}
    (hlt : attempt < retries - 1) (he : f attempt = .error e) :
    retryFrom f rand retries attempt =
      ((retryFrom f rand retries (attempt + 1)).1,
       (retryFrom f rand retries (attempt + 1)).2.1,
       rand attempt :: (retryFrom f rand retries (attempt + 1)).2.2) := by
  rw [retryFrom]
  have h1 : attempt < retries := by omega
  simp [h1, he, hlt]

/-- Unfolding the retry loop at a failing final attempt. -/
theorem retryFrom_last_fail {f : Nat → Except String Val} {rand : Nat → ℚ}
    {retries attempt : Nat} {e : String}
    (h1 : attempt < retries) (hlast : ¬ attempt < retries - 1)
    (he : f attempt = .error e) :
    retryFrom f rand retries attempt = (none, attempt + 1, []) := by
  rw [retryFrom]
  simp [h1, he, hlast]

/-- Unfolding the retry loop at a succeeding attempt. -/
theorem retryFrom_step_ok {f : Nat → Except String Val} {rand : Nat → ℚ}
    {retries attempt : Nat} {p : Val}
    (h1 : attempt < retries) (hp : f attempt = .ok p) :
    retryFrom f rand retries attempt = (some p, attempt + 1, []) := by
  rw [retryFrom]
  simp [h1, hp]

/-- If the underlying fetcher fails strictly before call `N` and succeeds at
call `N`, and the loop has attempts left up to `N`, it returns the payload
after the `N`-th call with one sleep per failed attempt. -/
theorem retryFrom_success {f : Nat → Except String Val} {rand : Nat → ℚ}
    {R N : Nat} {p : Val}
    (hfail : ∀ i, i < N → ∃ e, f i = .error e) (hsucc : f N = .ok p) (hNR : N < R) :
    ∀ d k, N - k = d → k ≤ N →
      retryFrom f rand R k = (some p, N + 1, (List.range' k (N - k)).map rand) := by
  intro d
  induction d with
  | zero =>
    intro k hd hk
    have hkN : k = N := by omega
    subst hkN
    rw [retryFrom_step_ok hNR hsucc]
    simp
  | succ d ih =>
    intro k hd hk
    have hkN : k < N := by omega
    obtain ⟨e, he⟩ := hfail k hkN
    rw [retryFrom_step_fail (by omega) he, ih (k + 1) (by omega) (by omega)]
    have hrange : List.range' k (N - k) = k :: List.range' (k + 1) (N - (k + 1)) := by
      have : N - k = (N - (k + 1)) + 1 := by omega
      rw [this, List.range'_succ]
    rw [hrange]
    simp

/-- If the underlying fetcher fails on every remaining attempt, the loop
returns `None` after the last attempt, sleeping after every failed attempt
but the last. -/
theorem retryFrom_exhaust {f : Nat → Except String Val} {rand : Nat → ℚ}
    {R N : Nat}
    (hfail : ∀ i, i < N → ∃ e, f i = .error e) (hRN : R ≤ N) :
    ∀ d k, R - k = d → k < R →
      retryFrom f rand R k = (none, R, (List.range' k (R - 1 - k)).map rand) := by
  intro d
  induction d with
  | zero => intro k hd hk; omega
  | succ d ih =>
    intro k hd hk
    obtain ⟨e, he⟩ := hfail k (by omega)
    by_cases hlast : k < R - 1
    · rw [retryFrom_step_fail hlast he, ih (k + 1) (by omega) (by omega)]
      have hrange : List.range' k (R - 1 - k) = k :: List.range' (k + 1) (R - 1 - (k + 1)) := by
        have : R - 1 - k = (R - 1 - (k + 1)) + 1 := by omega
        rw [this, List.range'_succ]
      rw [hrange]
      simp
    · have hk1 : k + 1 = R := by omega
      have hr : R - 1 - k = 0 := by omega
      rw [retryFrom_last_fail hk hlast he, hk1, hr]
      simp

/-- The advances/declines stage never touches the provider-call counter. -/
theorem advDecStage_calls (env : Env) (w : World) :
    (advDecStage env w).1.mostActiveCalls = w.mostActiveCalls := by
  unfold advDecStage
  split
  · rfl
  · split
    · rfl
    · split
      · dsimp only
        split <;> rfl
      · rfl

/-- After overwriting the worksheet named `n`, lookup finds the new
contents (provided the name was present). -/
theorem findTab_setTab {tabs : List (String × Worksheet)} {n : String}
    {w w2 : Worksheet} (h : findTab tabs n = some w) :
    findTab (setTab tabs n w2) n = some w2 := by
  induction tabs with
  | nil => simp [findTab] at h
  | cons p ps ih =>
    by_cases hp : p.1 = n
    · simp [setTab, findTab, hp]
    · rw [findTab] at h
      rw [if_neg hp] at h
      simp only [setTab, List.map_cons, if_neg hp]
      rw [findTab, if_neg hp]
      exact ih h

/-- Overwriting the same worksheet twice keeps only the second write. -/
theorem setTab_setTab (tabs : List (String × Worksheet)) (n : String)
    (w w2 : Worksheet) : setTab (setTab tabs n w) n w2 = setTab tabs n w2 := by
  induction tabs with
  | nil => rfl
  | cons p ps ih =>
    by_cases hp : p.1 = n
    · simp [setTab, hp] at ih ⊢
      exact ih
    · simp [setTab, hp] at ih ⊢
      exact ih

/-- A name absent from the store is found exactly at a newly appended
entry. -/
theorem findTab_append {tabs : List (String × Worksheet)} {n : String}
    {w : Worksheet} (h : findTab tabs n = none) :
    findTab (tabs ++ [(n, w)]) n = some w := by
  induction tabs with
  | nil => simp [findTab]
  | cons p ps ih =>
    rw [findTab] at h
    by_cases hp : p.1 = n
    · rw [if_pos hp] at h
      exact absurd h (by simp)
    · rw [if_neg hp] at h
      rw [List.cons_append, findTab, if_neg hp]
      exact ih h

/-- Overwriting a name absent from the store changes nothing. -/
theorem setTab_absent {tabs : List (String × Worksheet)} {n : String}
    {w : Worksheet} (h : findTab tabs n = none) : setTab tabs n w = tabs := by
  induction tabs with
  | nil => rfl
  | cons p ps ih =>
    rw [findTab] at h
    by_cases hp : p.1 = n
    · rw [if_pos hp] at h
      exact absurd h (by simp)
    · rw [if_neg hp] at h
      simp only [setTab, List.map_cons, if_neg hp]
      have := ih h
      simp only [setTab] at this
      rw [this]

/-!
## Claims
-/

/-- C3: for `fetch_nse_data_with_retries` with retry bound `R` (source
default 3) over an underlying fetcher that raises on its first `N` calls and
succeeds on call `N + 1`: with `N < R` it returns the successful payload
after `N + 1` attempts; with `R ≤ N` it returns `None` after exactly `R`
attempts and raises nothing; each sleep between consecutive failed attempts
is a `random.uniform(delay, delay * 2)` draw, hence between `delay` and
`2 * delay` seconds. -/
theorem fetch_retry_bound (f : Nat → Except String Val) (rand : Nat → ℚ)
    (delay : ℚ) (R N : Nat) (p : Val)
    (hfail : ∀ i, i < N → ∃ e, f i = .error e) (hsucc : f N = .ok p)
    (hrand : ∀ i, delay ≤ rand i ∧ rand i ≤ 2 * delay) :
    (N < R →
      fetch_nse_data_with_retries f rand R = (some p, N + 1, (List.range N).map rand))
    ∧ (R ≤ N →
      fetch_nse_data_with_retries f rand R = (none, R, (List.range (R - 1)).map rand))
    ∧ ∀ d ∈ (fetch_nse_data_with_retries f rand R).2.2, delay ≤ d ∧ d ≤ 2 * delay := by
  have h1 : N < R →
      fetch_nse_data_with_retries f rand R = (some p, N + 1, (List.range N).map rand) := by
    intro hNR
    rw [fetch_nse_data_with_retries,
      retryFrom_success hfail hsucc hNR N 0 (by omega) (by omega),
      List.range_eq_range']
    simp
  have h2 : R ≤ N →
      fetch_nse_data_with_retries f rand R = (none, R, (List.range (R - 1)).map rand) := by
    intro hRN
    rcases Nat.eq_zero_or_pos R with hR0 | hRpos
    · subst hR0
      rw [fetch_nse_data_with_retries, retryFrom]
      simp
    · rw [fetch_nse_data_with_retries,
        retryFrom_exhaust hfail hRN R 0 (by omega) hRpos,
        List.range_eq_range']
      simp
  refine ⟨h1, h2, ?_⟩
  intro d hd
  rcases Nat.lt_or_ge N R with hNR | hRN
  · rw [h1 hNR] at hd
    simp only [List.mem_map] at hd
    obtain ⟨i, _, rfl⟩ := hd
    exact hrand i
  · rw [h2 hRN] at hd
    simp only [List.mem_map] at hd
    obtain ⟨i, _, rfl⟩ := hd
    exact hrand i

/-- Witness for `fetch_retry_bound`: a fetcher failing twice then
succeeding, bound 3, delay 2, every draw 3. -/
theorem fetch_retry_bound_witness :
    fetch_nse_data_with_retries
        (fun i => if i < 2 then .error "boom" else .ok (Val.num 7))
        (fun _ => (3 : ℚ)) 3
      = (some (Val.num 7), 3, [3, 3]) := by
  have h := fetch_retry_bound
      (fun i => if i < 2 then .error "boom" else .ok (Val.num 7))
      (fun _ => (3 : ℚ)) 2 3 2 (Val.num 7)
      (fun i hi => ⟨"boom", by simp [hi]⟩)
      (by norm_num)
      (fun i => by norm_num)
  rw [h.1 (by norm_num)]
  rfl

/-- C8: uploading the same Table twice in succession to the same worksheet
tab leaves the store exactly as after one upload: a found worksheet is
cleared and rewritten in place, so the second upload reproduces the first
(overwrite semantics, not append). -/
theorem upload_idempotent (tabs tabs' : List (String × Worksheet))
    (tab : String) (df : DataFrame)
    (h : upload_to_google_sheets true tabs tab df = .ok tabs') :
    upload_to_google_sheets true tabs' tab df = .ok tabs' := by
  rw [upload_to_google_sheets, if_pos rfl] at h ⊢
  cases hf : findTab tabs tab with
  | some ws =>
    rw [hf] at h
    injection h with h'
    subst h'
    rw [findTab_setTab hf]
    dsimp only
    rw [setTab_setTab]
  | none =>
    rw [hf] at h
    injection h with h'
    subst h'
    rw [findTab_append hf]
    have habs := setTab_absent
      (w := { nrows := df.rows.length + 1, ncols := df.header.length,
              cells := df.header.map Val.str :: df.rows }) hf
    show Except.ok (setTab (tabs ++ [(tab, _)]) tab _) = _
    rw [setTab, List.map_append]
    rw [setTab] at habs
    rw [habs]
    simp [setTab]

/-- Witness for `upload_idempotent`: re-uploading to the store produced by a
first upload leaves it unchanged. -/
theorem upload_idempotent_witness :
    upload_to_google_sheets true
        [("Adv_Dec", { nrows := 2, ncols := 1,
                       cells := [[Val.str "advances"], [Val.num 10]] })]
        "Adv_Dec" { header := ["advances"], rows := [[Val.num 10]] }
      = .ok [("Adv_Dec", { nrows := 2, ncols := 1,
                           cells := [[Val.str "advances"], [Val.num 10]] })] :=
  upload_idempotent [] _ "Adv_Dec" { header := ["advances"], rows := [[Val.num 10]] } rfl

/-- C9: when no worksheet named `tab_name` exists, the upload creates one
with `len(dataframe) + 1` rows (the extra one for the header) and
`len(dataframe.columns)` columns, and writes header plus data rows into
it. -/
theorem upload_creates_worksheet (tabs : List (String × Worksheet))
    (tab : String) (df : DataFrame) (h : findTab tabs tab = none) :
    ∃ tabs', upload_to_google_sheets true tabs tab df = .ok tabs'
      ∧ findTab tabs' tab
          = some { nrows := df.rows.length + 1, ncols := df.header.length,
                   cells := df.header.map Val.str :: df.rows } := by
  refine ⟨tabs ++ [(tab, { nrows := df.rows.length + 1, ncols := df.header.length,
                           cells := df.header.map Val.str :: df.rows })], ?_, ?_⟩
  · rw [upload_to_google_sheets, if_pos rfl, h]
  · exact findTab_append h

/-- Witness for `upload_creates_worksheet`: a 1-row, 2-column Table gets a
fresh 2×2 worksheet. -/
theorem upload_creates_worksheet_witness :
    ∃ tabs', upload_to_google_sheets true [] "Most Active"
        { header := ["symbol", "value"], rows := [[Val.str "ABC", Val.num 100]] }
        = .ok tabs'
      ∧ findTab tabs' "Most Active"
          = some { nrows := 2, ncols := 2,
                   cells := [[Val.str "symbol", Val.str "value"],
                             [Val.str "ABC", Val.num 100]] } :=
  upload_creates_worksheet [] "Most Active"
    { header := ["symbol", "value"], rows := [[Val.str "ABC", Val.num 100]] } rfl

/-- C2 counterexample: a response whose `data` collection is empty makes the
advances/declines conversion raise the `ValueError` — it does not return
Empty. -/
theorem advdec_shape_handling_cex :
    advDecConvert (Val.dict [("meta", Val.dict [("mx", Val.num 1)]),
        ("data", Val.list [])])
      = .error "Data is not in a suitable format for DataFrame conversion" := rfl

/-- C2 (amended): the advances/declines conversion ignores any `meta` entry
and takes `data` as the row collection; an absent or empty collection makes
it raise `ValueError("Data is not in a suitable format for DataFrame
conversion")` instead of returning Empty; a nonempty collection of mappings
yields the record Table; Scenario C holds up to that rendering. -/
theorem advdec_shape_handling (fs : List (String × Val)) (m : Val) :
    (advDecConvert (Val.dict (("meta", m) :: fs)) = advDecConvert (Val.dict fs))
    ∧ (recGet (fs.filter (fun kv => kv.1 ≠ "meta")) "data" = none ∨
       recGet (fs.filter (fun kv => kv.1 ≠ "meta")) "data" = some (Val.list []) →
        advDecConvert (Val.dict fs)
          = .error "Data is not in a suitable format for DataFrame conversion")
    ∧ (∀ r rest, recGet (fs.filter (fun kv => kv.1 ≠ "meta")) "data"
          = some (Val.list (Val.dict r :: rest)) →
        (∀ x ∈ rest, x.isDict = true) →
        advDecConvert (Val.dict fs) = pdDataFrameOfList (Val.dict r :: rest))
    ∧ ((advDecConvert (Val.dict [("meta", Val.dict [("x", Val.num 1)]),
          ("data", Val.list [Val.dict [("index", Val.str "NIFTY"),
            ("advances", Val.num 10)]])])).map cleanDataFrame
        = .ok { header := ["index", "advances"],
                rows := [[Val.str "NIFTY", Val.num 10]] }) := by
  refine ⟨?_, ?_, ?_, rfl⟩
  · have hfil : (("meta", m) :: fs).filter (fun kv => kv.1 ≠ "meta")
        = fs.filter (fun kv => kv.1 ≠ "meta") := by simp
    simp only [advDecConvert, hfil]
  · intro h
    rcases h with h | h <;> simp only [advDecConvert, h, Option.getD] <;> rfl
  · intro r rest h hrest
    simp only [advDecConvert, h, Option.getD]
    have htr : (Val.list (Val.dict r :: rest)).truthy = true := by
      simp [Val.truthy]
    rw [if_pos htr]

/-- Witness for `advdec_shape_handling`: an envelope with `meta` and an
empty `data` list raises the `ValueError`. -/
theorem advdec_shape_handling_witness :
    advDecConvert (Val.dict [("meta", Val.num 1), ("data", Val.list [])])
      = .error "Data is not in a suitable format for DataFrame conversion" :=
  (advdec_shape_handling [("meta", Val.num 1), ("data", Val.list [])] Val.null).2.1
    (Or.inr rfl)

/-- C4 counterexample: in the advances/declines dataset a nested cell is
stored as the empty string, not as the (truncated) string rendering of the
nested value. -/
theorem nested_cell_rendering_cex :
    ((advDecConvert (Val.dict [("data",
        Val.list [Val.dict [("x", Val.dict [("a", Val.num 1)])]])])).map cleanDataFrame
      = .ok { header := ["x"], rows := [[Val.str ""]] })
    ∧ pyStr (Val.dict [("a", Val.num 1)]) = "\x7b\x27a\x27: 1\x7d"
    ∧ Val.str "" ≠ Val.str "\x7b\x27a\x27: 1\x7d" := by
  refine ⟨rfl, rfl, ?_⟩
  intro h
  injection h with h'
  exact absurd h' (by decide)

/-- C4 (amended): a nested (dict/list) raw value becomes, under the
most-active flattening, its Python string rendering truncated to its first
50000 characters — in particular a string of length at most 50000 — while
the advances/declines cleaning replaces it by the empty string instead of a
rendering (also a string within the bound). -/
theorem nested_cell_rendering (v : Val) (hv : v.isNested = true) :
    (flattenCell v
        = Val.str (if (pyStr v).length > 50000 then pyTake (pyStr v) 50000 else pyStr v))
    ∧ (∃ s, flattenCell v = Val.str s ∧ s.length ≤ 50000)
    ∧ cleanCell v = Val.str "" := by
  have hflat : flattenCell v
      = Val.str (if (pyStr v).length > 50000 then pyTake (pyStr v) 50000 else pyStr v) := by
    cases v <;> simp_all [flattenCell, Val.isNested] <;> (split <;> rfl)
  refine ⟨hflat, ⟨_, hflat, ?_⟩, ?_⟩
  · split
    · show (pyTake (pyStr v) 50000).length ≤ 50000
      unfold pyTake
      show ((pyStr v).data.take 50000).length ≤ 50000
      rw [List.length_take]
      exact Nat.min_le_left _ _
    · omega
  · cases v <;> simp_all [cleanCell, Val.isNested, Val.isNull]

/-- Witness for `nested_cell_rendering`: the dict `{'a': 1}` flattens to its
rendering and cleans to the empty string. -/
theorem nested_cell_rendering_witness :
    flattenCell (Val.dict [("a", Val.num 1)]) = Val.str "\x7b\x27a\x27: 1\x7d"
      ∧ cleanCell (Val.dict [("a", Val.num 1)]) = Val.str "" := by
  have h := nested_cell_rendering (Val.dict [("a", Val.num 1)]) rfl
  refine ⟨?_, h.2.2⟩
  rw [h.1]
  rfl

/-- C5 counterexample: Scenario B pushed through the most-active normalizer
(validate, then flatten) stores the missing fields as the `NaN` null marker,
not as the empty string the claim states. -/
theorem heterogeneous_keys_table_cex :
    (validate_and_convert_to_dataframe
        (RawData.list [Val.dict [("a", Val.num 1)], Val.dict [("b", Val.num 2)]])).map
        (Option.map flatten_dataframe)
      = .ok (some { header := ["a", "b"],
                    rows := [[Val.num 1, Val.null], [Val.null, Val.num 2]] })
    ∧ Val.null ≠ Val.str "" :=
  ⟨rfl, fun h => Val.noConfusion h⟩

/-- C5 (amended): the record frame's header is exactly the keys occurring in
the records, without duplicates (and in first-seen order, as the concrete
scenario shows), and every row has one cell per header column; but a field
missing from a record is stored as the null marker `NaN`: Scenario B yields
rows `[1, NaN]` and `[NaN, 2]` after most-active flattening, and the empty
strings of the claim appear only after the advances/declines cleaning
step. -/
theorem heterogeneous_keys_table (recs : List (List (String × Val))) :
    ((dfOfRecords recs).header.Nodup
      ∧ (∀ k, k ∈ (dfOfRecords recs).header ↔ ∃ rec ∈ recs, ∃ kv ∈ rec, kv.1 = k)
      ∧ ∀ row ∈ (dfOfRecords recs).rows, row.length = (dfOfRecords recs).header.length)
    ∧ (flatten_dataframe (dfOfRecords [[("a", Val.num 1)], [("b", Val.num 2)]])
        = { header := ["a", "b"], rows := [[Val.num 1, Val.null], [Val.null, Val.num 2]] })
    ∧ (cleanDataFrame (dfOfRecords [[("a", Val.num 1)], [("b", Val.num 2)]])
        = { header := ["a", "b"],
            rows := [[Val.num 1, Val.str ""], [Val.str "", Val.num 2]] }) := by
  refine ⟨⟨nodup_unionKeys, fun k => mem_unionKeys, ?_⟩, rfl, rfl⟩
  intro row hrow
  simp only [dfOfRecords, List.mem_map] at hrow
  obtain ⟨rec, _, rfl⟩ := hrow
  simp [dfOfRecords]

/-- Witness for `heterogeneous_keys_table`: the first Scenario B row has as
many cells as the header has columns. -/
theorem heterogeneous_keys_table_witness :
    ([Val.num 1, Val.null] : List Val).length
      = (dfOfRecords [[("a", Val.num 1)], [("b", Val.num 2)]]).header.length :=
  (heterogeneous_keys_table [[("a", Val.num 1)], [("b", Val.num 2)]]).1.2.2
    [Val.num 1, Val.null] (List.mem_cons_self _ _)

/-- C6 counterexample: a sequence of scalars is silently coerced into a
single-column Table; `validate_and_convert_to_dataframe` raises no
`FormatError` for it. -/
theorem format_error_policy_cex :
    validate_and_convert_to_dataframe (RawData.list [Val.num 5, Val.num 6])
      = .ok (some { header := ["0"], rows := [[Val.num 5], [Val.num 6]] }) := rfl

/-- C6 (amended): only the advances/declines conversion reports a format
error for non-tabular input; the most-active validator raises no
`FormatError`: it silently coerces a sequence of scalars into a one-column
Table, silently tabulates a sequence of sequences into a multi-column
`NaN`-padded Table, and silently returns `None` (dataset skipped) for any
other unsupported shape. -/
theorem format_error_policy :
    (∀ xs : List Val, xs ≠ [] →
      (∀ x ∈ xs, x.isDict = false ∧ x.isList = false) →
      validate_and_convert_to_dataframe (RawData.list xs)
        = .ok (some { header := ["0"], rows := xs.map (fun v => [v]) }))
    ∧ (∀ rs : List (List Val), rs ≠ [] →
        validate_and_convert_to_dataframe (RawData.list (rs.map Val.list))
          = .ok (some
              { header := (List.range (maxRowLen (rs.map Val.list))).map
                  (fun i => toString i),
                rows := rs.map (fun r =>
                  r ++ List.replicate (maxRowLen (rs.map Val.list) - r.length)
                    Val.null) }))
    ∧ (∀ v, validate_and_convert_to_dataframe (RawData.scalar v) = .ok none)
    ∧ (∀ x xs, x.isDict = false →
        advDecConvert (Val.list (x :: xs))
          = .error "Data is not in a suitable format for DataFrame conversion") := by
  refine ⟨?_, ?_, fun v => rfl, ?_⟩
  · intro xs hne hnd
    cases xs with
    | nil => exact absurd rfl hne
    | cons y ys =>
      have hyd : Val.isDict y = false := (hnd y (List.mem_cons_self _ _)).1
      have hyl : Val.isList y = false := (hnd y (List.mem_cons_self _ _)).2
      have hany : (y :: ys).any Val.isDict = false := by
        rw [List.any_eq_false]
        intro x hx
        simp [(hnd x hx).1]
      have hall : (y :: ys).all Val.isDict = false := by
        simp [List.all_cons, hyd]
      simp [validate_and_convert_to_dataframe, pdDataFrameOfList, hall, hany, hyl,
        Except.map]
  · intro rs hne
    cases rs with
    | nil => exact absurd rfl hne
    | cons r rest =>
      have hall : ((r :: rest).map Val.list).all Val.isDict = false := by
        simp [Val.isDict]
      have hany : ((r :: rest).map Val.list).any Val.isDict = false := by
        rw [List.any_eq_false]
        intro x hx
        simp only [List.mem_map] at hx
        obtain ⟨q, _, rfl⟩ := hx
        simp [Val.isDict]
      have halll : ((r :: rest).map Val.list).all Val.isList = true := by
        rw [List.all_eq_true]
        intro x hx
        simp only [List.mem_map] at hx
        obtain ⟨q, _, rfl⟩ := hx
        rfl
      simp [validate_and_convert_to_dataframe, pdDataFrameOfList, hall, hany, halll,
        Except.map, Val.elems, Val.isList, Val.isDict, List.map_map, Function.comp]
  · intro x xs hx
    cases x <;> simp_all [advDecConvert, Val.truthy, Val.isDict]

/-- Witness for `format_error_policy`: the scalar list `[1, 2, 3]` comes
back as a Table, no error. -/
theorem format_error_policy_witness :
    validate_and_convert_to_dataframe (RawData.list [Val.num 1, Val.num 2, Val.num 3])
      = .ok (some { header := ["0"],
                    rows := [[Val.num 1], [Val.num 2], [Val.num 3]] }) :=
  format_error_policy.1 [Val.num 1, Val.num 2, Val.num 3] (by simp)
    (by intro x hx
        simp only [List.mem_cons, List.not_mem_nil, or_false] at hx
        rcases hx with rfl | rfl | rfl <;> exact ⟨rfl, rfl⟩)

/-- C1 counterexample: with the spreadsheet service down, the most-active
upload error escapes `save_data_to_google_sheets_and_csv` uncaught, and the
advances/declines dataset — whose fetch would have succeeded — is never
fetched, converted, or written. -/
theorem driver_error_propagation_cex :
    save_data_to_google_sheets_and_csv
      { mostActiveResp := .ok (.frame { header := ["sym"], rows := [[Val.str "XYZ"]] }),
        advDecResp := .ok (Val.dict [("data", Val.list [Val.dict
          [("index", Val.str "NIFTY"), ("advances", Val.num 10)]])]),
        uploadOk := false, csvOk := fun _ => true }
      = ({ tabs := [], csvFiles := [], mostActiveCalls := 1 }, some "UploadError") := rfl

/-- C1 (amended): the driver catches only what its callees catch.  A
most-active provider error is absorbed inside `fetch_nse_data` and the run
continues into the advances/declines dataset; but an upload error and the
advances/declines `ValueError` are uncaught, terminate
`save_data_to_google_sheets_and_csv`, and an upload failure in the
most-active dataset prevents the advances/declines dataset from being
fetched or written. -/
theorem driver_error_propagation :
    (∀ (e : String) (rec : List (String × Val)),
      save_data_to_google_sheets_and_csv
        { mostActiveResp := .error e,
          advDecResp := .ok (Val.dict [("data", Val.list [Val.dict rec])]),
          uploadOk := true, csvOk := fun _ => true }
      = ({ tabs := [("Adv_Dec",
              { nrows := (cleanDataFrame (dfOfRecords [rec])).rows.length + 1,
                ncols := (cleanDataFrame (dfOfRecords [rec])).header.length,
                cells := (cleanDataFrame (dfOfRecords [rec])).header.map Val.str
                  :: (cleanDataFrame (dfOfRecords [rec])).rows })],
           csvFiles := [("advances_declines", cleanDataFrame (dfOfRecords [rec]))],
           mostActiveCalls := 1 }, none))
    ∧ (∀ (df : DataFrame) (adv : Except String Val) (cs : String → Bool),
        df.isEmptyDf = false →
        save_data_to_google_sheets_and_csv
          { mostActiveResp := .ok (.frame df), advDecResp := adv,
            uploadOk := false, csvOk := cs }
        = ({ tabs := [], csvFiles := [], mostActiveCalls := 1 }, some "UploadError"))
    ∧ (∀ (e : String) (up : Bool) (cs : String → Bool),
        save_data_to_google_sheets_and_csv
          { mostActiveResp := .error e,
            advDecResp := .ok (Val.dict [("data", Val.list [])]),
            uploadOk := up, csvOk := cs }
        = ({ tabs := [], csvFiles := [], mostActiveCalls := 1 },
           some "Data is not in a suitable format for DataFrame conversion")) := by
  refine ⟨fun e rec => rfl, ?_, fun e up cs => rfl⟩
  intro df adv cs hdf
  simp [save_data_to_google_sheets_and_csv, fetch_nse_data,
    validate_and_convert_to_dataframe, upload_to_google_sheets, hdf]

/-- Witness for `driver_error_propagation`: concrete run hitting the
most-active upload failure. -/
theorem driver_error_propagation_witness :
    save_data_to_google_sheets_and_csv
      { mostActiveResp := .ok (.frame { header := ["symbol"], rows := [[Val.str "ABC"]] }),
        advDecResp := .ok (Val.dict [("data", Val.list [Val.dict [("index", Val.str "N")]])]),
        uploadOk := false, csvOk := fun _ => true }
      = ({ tabs := [], csvFiles := [], mostActiveCalls := 1 }, some "UploadError") :=
  driver_error_propagation.2.1
    { header := ["symbol"], rows := [[Val.str "ABC"]] }
    (.ok (Val.dict [("data", Val.list [Val.dict [("index", Val.str "N")]])]))
    (fun _ => true) rfl

/-- C7 counterexample: the most-active upload fails with `UploadError`; the
driver terminates on the uncaught exception and the `Most_Active` CSV write
is never attempted — the final world holds no CSV file at all. -/
theorem upload_failure_csv_cex :
    save_data_to_google_sheets_and_csv
      { mostActiveResp := .ok (.frame { header := ["q"], rows := [[Val.num 4], [Val.num 5]] }),
        advDecResp := .ok Val.null, uploadOk := false, csvOk := fun _ => true }
      = ({ tabs := [], csvFiles := [], mostActiveCalls := 1 }, some "UploadError") := rfl

/-- C7 (amended): an `UploadError` is caught nowhere and always escapes the
driver.  For the most-active dataset it strikes before the CSV write, so
that dataset's CSV is never attempted; for the advances/declines dataset the
CSV happens to be written first, so the file exists even though the upload
then fails. -/
theorem upload_failure_csv :
    (∀ (df : DataFrame) (adv : Except String Val),
        df.isEmptyDf = false →
        save_data_to_google_sheets_and_csv
          { mostActiveResp := .ok (.frame df), advDecResp := adv,
            uploadOk := false, csvOk := fun _ => true }
        = ({ tabs := [], csvFiles := [], mostActiveCalls := 1 }, some "UploadError"))
    ∧ (∀ (e : String) (rec : List (String × Val)),
        save_data_to_google_sheets_and_csv
          { mostActiveResp := .error e,
            advDecResp := .ok (Val.dict [("data", Val.list [Val.dict rec])]),
            uploadOk := false, csvOk := fun _ => true }
        = ({ tabs := [],
             csvFiles := [("advances_declines", cleanDataFrame (dfOfRecords [rec]))],
             mostActiveCalls := 1 }, some "UploadError")) := by
  refine ⟨?_, fun e rec => rfl⟩
  intro df adv hdf
  simp [save_data_to_google_sheets_and_csv, fetch_nse_data,
    validate_and_convert_to_dataframe, upload_to_google_sheets, hdf]

/-- Witness for `upload_failure_csv`: concrete most-active frame, service
down, no CSV in the final world. -/
theorem upload_failure_csv_witness :
    save_data_to_google_sheets_and_csv
      { mostActiveResp := .ok (.frame { header := ["p"], rows := [[Val.num 9]] }),
        advDecResp := .error "ConnectionError", uploadOk := false,
        csvOk := fun _ => true }
      = ({ tabs := [], csvFiles := [], mostActiveCalls := 1 }, some "UploadError") :=
  upload_failure_csv.1 { header := ["p"], rows := [[Val.num 9]] }
    (.error "ConnectionError") rfl

/-- C10: the driver fetches the most-active dataset through
`fetch_nse_data`, not through the retry wrapper: every run makes exactly one
`nse_most_active` provider call, whatever the environment does, and
`fetch_nse_data` maps a provider exception to `None` instead of
re-raising. -/
theorem single_fetch_no_retry :
    (∀ env : Env, (save_data_to_google_sheets_and_csv env).1.mostActiveCalls = 1)
    ∧ (∀ e, fetch_nse_data (.error e) = none)
    ∧ (∀ v, fetch_nse_data (.ok v) = some v) := by
  refine ⟨?_, fun e => rfl, fun v => rfl⟩
  intro env
  unfold save_data_to_google_sheets_and_csv
  dsimp only
  split
  · rw [advDecStage_calls]
  · split
    · rw [advDecStage_calls]
    · split
      · rfl
      · rfl
      · try dsimp only
        split
        · rfl
        · rw [advDecStage_calls]
  · rfl
